import Mathlib

/-!
Shallow embedding of `symphony/bdk/core/service/datafeed/datafeed_loop_v2.py`
(class `DatafeedLoopV2`) and of the retry-driven read loop around it.

The mutable state of a `DatafeedLoopV2` instance relevant to the verified
properties is the pair `(_datafeed_id, _ack_id)`.  Network calls are modelled
by passing their outcomes in explicitly and recording the calls the code
makes (with the exact parameters it passes) in a trace.
-/

namespace SymphonyDF

/-- A server-side datafeed handle as returned by the agent API (the
`V5Datafeed` generated model): carries an id. -/
structure V5Datafeed where
  id : String
  deriving DecidableEq, Repr

/-- A decoded real-time event; opaque in this development (only its position
in a batch matters). -/
structure V4Event where
  tag : Nat
  deriving DecidableEq, Repr

/-- Response of the agent `read_datafeed` call: an `ack_id` and an `events`
attribute that in Python may be `None` (modelled `none`), an empty list, or a
non-empty list. -/
structure V5EventList where
  ack_id : String
  events : Option (List V4Event)
  deriving DecidableEq, Repr

/-- The state of `DatafeedLoopV2` mutated by the datafeed operations:
`_datafeed_id` (a `String` or Python `None`) and `_ack_id`. -/
structure DFState where
  datafeed_id : Option String
  ack_id : String
  deriving DecidableEq, Repr

/-- The state set by `DatafeedLoopV2.__init__`: `self._ack_id = ""` and
`self._datafeed_id = None`. -/
def initState : DFState := { datafeed_id := none, ack_id := "" }

/-- The auth session collaborator: `session_token` and `key_manager_token`
are awaited anew at each use, so they are modelled as functions of the time
(attempt index) at which the `await` happens — the tokens may differ between
awaits. -/
structure AuthSession where
  session_token : Nat → String
  key_manager_token : Nat → String

/-- A network call issued by the loop, recorded with the exact parameters the
Python code passes to the corresponding `DatafeedApi` method. -/
inductive ApiCall where
  | listDatafeed (session_token key_manager_token : String)
  | createDatafeed (session_token key_manager_token : String)
  | deleteDatafeed (datafeed_id : Option String) (session_token key_manager_token : String)
  | readDatafeed (session_token key_manager_token : String)
      (datafeed_id : Option String) (ack_id : String)
  | stopListenerTasks
  deriving DecidableEq, Repr

/-- Errors that a network call or the loop can raise: `ApiException(status)`
from the transport, or an unexpected non-transport error such as the
`ValueError` used in the tests. -/
inductive ApiError where
  | apiException (status : Nat)
  | valueError
  deriving DecidableEq, Repr

/-- Body of `DatafeedLoopV2._retrieve_datafeed` after the `list_datafeed`
call returned `datafeeds`: `if datafeeds: return datafeeds[0]` (Python
truthiness: the empty list is falsy), `return None` otherwise. -/
def retrieve_datafeed (datafeeds : List V5Datafeed) : Option V5Datafeed :=
  match datafeeds with
  | [] => none
  | d :: _ => some d

/-- `DatafeedLoopV2.prepare_datafeed`: awaits `_retrieve_datafeed()`; if that
returned `None`, awaits `_create_datafeed()`; then stores the resulting id
in `self._datafeed_id`.  `self._ack_id` is not assigned by this method.
`listResult` is the list the agent listing returns and `createResult` the
datafeed a create call would return. -/
def prepare_datafeed (listResult : List V5Datafeed) (createResult : V5Datafeed)
    (s : DFState) : DFState :=
  match retrieve_datafeed listResult with
  | some d => { s with datafeed_id := some d.id }
  | none => { s with datafeed_id := some createResult.id }

/-- Python truthiness of the `events` attribute of a `read_datafeed`
response: `None` and `[]` are falsy, a non-empty list is truthy. -/
def events_truthy : Option (List V4Event) → Bool
  | some (_ :: _) => true
  | _ => false

/-- Success path of `DatafeedLoopV2.read_datafeed` once the agent call has
returned `event_list`: first `self._ack_id = event_list.ack_id` is executed,
then `if event_list.events: return event_list.events` (so the function
returns `None` — here `none` — for an absent or empty batch).  Returns the
new state and the returned value. -/
def read_datafeed_success (event_list : V5EventList) (s : DFState) :
    DFState × Option (List V4Event) :=
  let s2 : DFState := { s with ack_id := event_list.ack_id }
  if events_truthy event_list.events then (s2, event_list.events) else (s2, none)

/-- A sequence of successful reads threaded through the loop state. -/
def run_reads (resps : List V5EventList) (s : DFState) : DFState :=
  resps.foldl (fun st r => (read_datafeed_success r st).1) s

/-- The call made by one attempt of the body of
`DatafeedLoopV2.read_datafeed` at attempt time `t`: both tokens are awaited
inside the body and the `params` dict is built from the current state, so
the call carries the tokens of time `t` and the current `_datafeed_id` and
`_ack_id`. -/
def read_datafeed_attempt (auth : AuthSession) (t : Nat) (s : DFState) : ApiCall :=
  ApiCall.readDatafeed (auth.session_token t) (auth.key_manager_token t)
    s.datafeed_id s.ack_id

/-- The call made by one attempt of the body of
`DatafeedLoopV2._retrieve_datafeed` at attempt time `t`: tokens awaited
inside the body, then `list_datafeed`. -/
def retrieve_datafeed_attempt (auth : AuthSession) (t : Nat) : ApiCall :=
  ApiCall.listDatafeed (auth.session_token t) (auth.key_manager_token t)

/-- The call made by one attempt of the body of
`DatafeedLoopV2._create_datafeed` at attempt time `t`. -/
def create_datafeed_attempt (auth : AuthSession) (t : Nat) : ApiCall :=
  ApiCall.createDatafeed (auth.session_token t) (auth.key_manager_token t)

/-- The call made by one attempt of the body of
`DatafeedLoopV2._delete_datafeed` at attempt time `t`: tokens awaited inside
the body, and the deletion targets the current `self._datafeed_id`. -/
def delete_datafeed_attempt (auth : AuthSession) (t : Nat) (s : DFState) : ApiCall :=
  ApiCall.deleteDatafeed s.datafeed_id (auth.session_token t) (auth.key_manager_token t)

/-- Modelled from the spec: the `retry` decorator
(`symphony.bdk.core.retry`, not under `src/`) re-enters the wrapped
coroutine body on every attempt, so everything inside the body — including
the token awaits — is re-evaluated per attempt.  `body t` is the call the
wrapped body makes when entered at attempt time `t`; the runner performs
attempts `0, 1, …, n-1` and this is the list of calls it issues. -/
def retry_call_trace (body : Nat → ApiCall) (n : Nat) : List ApiCall :=
  (List.range n).map body

/-- `DatafeedLoopV2.recreate_datafeed`: awaits `self._delete_datafeed()`
(which deletes the current `self._datafeed_id`), then awaits
`self._create_datafeed()`, then assigns `self._datafeed_id = datafeed.id`
and `self._ack_id = ""`.  There is no exception handler in the method: an
exception raised by either call propagates and none of the assignments run,
leaving the state as it was.  `deleteOutcome` and `createOutcome` are the
results of the two (already retried) calls at times `t` and `t + 1`.
Returns the call trace, the overall outcome, and the state after the call
(unchanged whenever an error is returned). -/
def recreate_datafeed (auth : AuthSession) (t : Nat)
    (deleteOutcome : Except ApiError Unit)
    (createOutcome : Except ApiError V5Datafeed)
    (s : DFState) : List ApiCall × Except ApiError Unit × DFState :=
  let deleteCall := delete_datafeed_attempt auth t s
  match deleteOutcome with
  | .error e => ([deleteCall], .error e, s)
  | .ok _ =>
    let createCall := create_datafeed_attempt auth (t + 1)
    match createOutcome with
    | .error e => ([deleteCall, createCall], .error e, s)
    | .ok df => ([deleteCall, createCall], .ok (),
        { datafeed_id := some df.id, ack_id := "" })

/-- Outcome of one attempt of the agent `read_datafeed` call, as scripted by
the environment: a successful response, an `ApiException` with an HTTP
status, or an unexpected non-transport error (a `ValueError` in the tests). -/
inductive ReadOutcome where
  | ok (resp : V5EventList)
  | apiErr (status : Nat)
  | unexpected
  deriving DecidableEq, Repr

/-- Modelled from the spec: the stale-handle classification of the
`read_datafeed_retry` strategy (`symphony.bdk.core.retry.strategy`, not
under `src/`) — the specific client-error status HTTP 400 signals an
invalid/expired handle and triggers recreation. -/
def is_stale (status : Nat) : Bool := status == 400

/-- Modelled from the spec: transient transport errors (server-side 5xx and
HTTP 429 throttling) are retried per policy with the handle left
unchanged. -/
def is_transient (status : Nat) : Bool := status == 429 || 500 ≤ status

/-- Result of running the retried read: either one read succeeded (with the
resulting state and returned batch), or an error was raised out of the
retry wrapper (with the state at that point). -/
inductive RetryResult where
  | success (s : DFState) (ret : Option (List V4Event))
  | raised (e : ApiError) (s : DFState)
  deriving DecidableEq, Repr

/-- Modelled from the spec: the retried `read_datafeed` call
(`@retry(retry=read_datafeed_retry)`, decorator and strategy not under
`src/`).  Attempt `i` issues a read with the current state; on success the
body from `src/` (`read_datafeed_success`) runs.  On an `ApiException`: if
the retry budget is exhausted the error is raised; otherwise a stale-handle
status triggers `recreate_datafeed` — delete of the old handle, create of a
new one (scripted by `recreations`), cursor reset to empty — consuming the
failed attempt without resetting the counter, and the read is retried;
a transient status is retried with the handle unchanged; any other status
is raised.  An unexpected non-transport error is raised immediately,
bypassing retry.  `i` is the attempt index, `attemptsLeft` the remaining
budget, `recs` the recreations performed so far.  Returns the call trace,
the total number of recreations, and the outcome. -/
def read_retry_go (auth : AuthSession) (outcomes : Nat → ReadOutcome)
    (recreations : Nat → V5Datafeed) :
    Nat → Nat → Nat → DFState → List ApiCall × Nat × RetryResult
  | _, 0, recs, s => ([], recs, .raised .valueError s)
  | i, Nat.succ left, recs, s =>
    let call := read_datafeed_attempt auth i s
    match outcomes i with
    | .ok resp =>
      let p := read_datafeed_success resp s
      ([call], recs, .success p.1 p.2)
    | .apiErr status =>
      if left == 0 then
        ([call], recs, .raised (.apiException status) s)
      else if is_stale status then
        let df := recreations recs
        let deleteCall := delete_datafeed_attempt auth i s
        let createCall := create_datafeed_attempt auth i
        let s2 : DFState := { datafeed_id := some df.id, ack_id := "" }
        let rest := read_retry_go auth outcomes recreations (i + 1) left (recs + 1) s2
        (call :: deleteCall :: createCall :: rest.1, rest.2.1, rest.2.2)
      else if is_transient status then
        let rest := read_retry_go auth outcomes recreations (i + 1) left recs s
        (call :: rest.1, rest.2.1, rest.2.2)
      else
        ([call], recs, .raised (.apiException status) s)
    | .unexpected => ([call], recs, .raised .valueError s)

/-- Modelled from the spec: one iteration of the read-dispatch cycle of
`start()` (`AbstractDatafeedLoop.start` and `_run_loop` are not under
`src/`): the retried read runs with the full budget `maxAttempts`; if it
raises, the listener tasks are stopped (best-effort shutdown of the
dispatch side, recorded in the trace) before the error propagates out of
`start()`.  Returns the call trace, the number of recreations, and the
propagated error if any. -/
def start_first_cycle (auth : AuthSession) (maxAttempts : Nat)
    (outcomes : Nat → ReadOutcome) (recreations : Nat → V5Datafeed)
    (s : DFState) : List ApiCall × Nat × Option ApiError :=
  let r := read_retry_go auth outcomes recreations 0 maxAttempts 0 s
  match r.2.2 with
  | .raised e _ => (r.1 ++ [ApiCall.stopListenerTasks], r.2.1, some e)
  | .success _ _ => (r.1, r.2.1, none)

/-- Number of read attempts recorded in a trace. -/
def read_count (trace : List ApiCall) : Nat :=
  trace.countP (fun c => match c with
    | ApiCall.readDatafeed _ _ _ _ => true
    | _ => false)

/-! Theorems. -/

/-- Helper: the state produced by a successful read sets `_ack_id` to the
response's `ack_id` and touches nothing else, whatever the batch is. -/
theorem read_success_state (resp : V5EventList) (st : DFState) :
    (read_datafeed_success resp st).1 = { st with ack_id := resp.ack_id } := by
  unfold read_datafeed_success
  split <;> rfl

/-- C1: the claim states that `prepare_datafeed`, when the listing is
non-empty, resets `_ack_id` to `""` regardless of the cursor held before the
call.  Counterexample: from a state with cursor `"server_cursor"`, adopting
the pre-existing handle leaves the cursor at `"server_cursor"`, not `""`. -/
theorem C1_counterexample :
    prepare_datafeed [⟨"test_id_exist"⟩] ⟨"created"⟩
        { datafeed_id := some "old", ack_id := "server_cursor" }
      = { datafeed_id := some "test_id_exist", ack_id := "server_cursor" }
    ∧ ("server_cursor" : String) ≠ "" := by
  exact ⟨rfl, by decide⟩

/-- C1 (amended): when the backing service's list of feed handles is
non-empty, `prepare_datafeed` adopts the first handle in the list as the
stored datafeed id and leaves the stored cursor `_ack_id` unchanged; the
cursor is empty after the startup call only because `__init__` already set
it to `""`. -/
theorem C1_prepare_adopts_first_handle (d : V5Datafeed) (rest : List V5Datafeed)
    (createResult : V5Datafeed) (s : DFState) :
    prepare_datafeed (d :: rest) createResult s
      = { datafeed_id := some d.id, ack_id := s.ack_id } := by
  rfl

/-- C2: after `recreate_datafeed` succeeds, the stored cursor is `""` and
the stored datafeed id is the id of the handle returned by the create call;
in particular it differs from the prior id whenever the create returned a
new id. -/
theorem C2_recreate_resets_cursor (auth : AuthSession) (t : Nat)
    (df : V5Datafeed) (s : DFState) :
    (recreate_datafeed auth t (.ok ()) (.ok df) s).2.2
        = { datafeed_id := some df.id, ack_id := "" }
    ∧ (some df.id ≠ s.datafeed_id →
        (recreate_datafeed auth t (.ok ()) (.ok df) s).2.2.datafeed_id
          ≠ s.datafeed_id) := by
  exact ⟨rfl, fun h => h⟩

/-- C2 witness: concrete recreation from handle `"old"` with the service
returning `"new"`. -/
theorem C2_recreate_resets_cursor_witness :
    (recreate_datafeed ⟨fun _ => "st", fun _ => "kt"⟩ 0 (.ok ()) (.ok ⟨"new"⟩)
        { datafeed_id := some "old", ack_id := "cursor" }).2.2
        = { datafeed_id := some "new", ack_id := "" }
    ∧ (recreate_datafeed ⟨fun _ => "st", fun _ => "kt"⟩ 0 (.ok ()) (.ok ⟨"new"⟩)
        { datafeed_id := some "old", ack_id := "cursor" }).2.2.datafeed_id
        ≠ some "old" := by
  have h := C2_recreate_resets_cursor ⟨fun _ => "st", fun _ => "kt"⟩ 0 ⟨"new"⟩
    { datafeed_id := some "old", ack_id := "cursor" }
  exact ⟨h.1, h.2 (by decide)⟩

/-- C3: the claim states that a delete failure (after retry exhaustion) is
swallowed and recreation still proceeds to create a fresh handle.
Counterexample: when `_delete_datafeed` raises, `recreate_datafeed`
propagates the exception — the overall outcome is that error, and the call
trace contains only the delete call, no create. -/
theorem C3_counterexample :
    (recreate_datafeed ⟨fun _ => "st", fun _ => "kt"⟩ 0
        (.error (.apiException 500)) (.ok ⟨"new"⟩)
        { datafeed_id := some "old", ack_id := "c" }).2.1
      = .error (.apiException 500)
    ∧ (recreate_datafeed ⟨fun _ => "st", fun _ => "kt"⟩ 0
        (.error (.apiException 500)) (.ok ⟨"new"⟩)
        { datafeed_id := some "old", ack_id := "c" }).1
      = [ApiCall.deleteDatafeed (some "old") "st" "kt"] := by
  exact ⟨rfl, rfl⟩

/-- C3 (amended): `recreate_datafeed` has no exception handler around the
delete: if `_delete_datafeed` fails even after its retries, the error
propagates out of `recreate_datafeed`, the create call is never issued, and
the stored state is left unchanged. -/
theorem C3_delete_failure_propagates (auth : AuthSession) (t : Nat)
    (e : ApiError) (createOutcome : Except ApiError V5Datafeed) (s : DFState) :
    recreate_datafeed auth t (.error e) createOutcome s
      = ([delete_datafeed_attempt auth t s], .error e, s) := by
  rfl

/-- C4: over any non-empty sequence of successful reads, the stored cursor
equals the `ack_id` of the most recent read; and each single read updates
the cursor in the same step that produces the return value, with the new
state depending only on the response (dispatch plays no part). -/
theorem C4_cursor_tracks_last_read (resps : List V5EventList)
    (r : V5EventList) (s : DFState) :
    (run_reads (resps ++ [r]) s).ack_id = r.ack_id
    ∧ ∀ resp st, (read_datafeed_success resp st).1
        = { st with ack_id := resp.ack_id } := by
  constructor
  · unfold run_reads
    rw [List.foldl_append]
    simp [read_success_state]
  · exact read_success_state

/-- C5: with a retry budget of 2 and a stale-handle (HTTP 400) failure on
the first read, exactly one recreation occurs; the second read attempt uses
the newly created handle's id with the cursor reset to `""`; the second
consecutive stale or transient error exhausts the budget and propagates out
of `start()`; recreation consumed one attempt without resetting the counter
(exactly two reads occur). -/
theorem C5_recreation_consumes_attempt (auth : AuthSession)
    (outcomes : Nat → ReadOutcome) (recreations : Nat → V5Datafeed)
    (s : DFState) (status2 : Nat)
    (h0 : outcomes 0 = .apiErr 400)
    (h1 : outcomes 1 = .apiErr status2)
    (h2 : is_stale status2 = true ∨ is_transient status2 = true) :
    start_first_cycle auth 2 outcomes recreations s
      = ([read_datafeed_attempt auth 0 s,
          delete_datafeed_attempt auth 0 s,
          create_datafeed_attempt auth 0,
          ApiCall.readDatafeed (auth.session_token 1) (auth.key_manager_token 1)
            (some (recreations 0).id) "",
          ApiCall.stopListenerTasks],
         1, some (.apiException status2))
    ∧ read_count (start_first_cycle auth 2 outcomes recreations s).1 = 2 := by
  have hrun : read_retry_go auth outcomes recreations 0 2 0 s
      = ([read_datafeed_attempt auth 0 s,
          delete_datafeed_attempt auth 0 s,
          create_datafeed_attempt auth 0,
          ApiCall.readDatafeed (auth.session_token 1) (auth.key_manager_token 1)
            (some (recreations 0).id) ""],
          1, .raised (.apiException status2)
            { datafeed_id := some (recreations 0).id, ack_id := "" }) := by
    rw [read_retry_go, h0]
    simp only [is_stale]
    rw [read_retry_go, h1]
    rfl
  refine ⟨?_, ?_⟩ <;>
    (unfold start_first_cycle; rw [hrun]; rfl)

/-- C5 witness: concrete scenario matching the tests — first read raises
400, second raises 500, one recreation, second read on the new handle with
empty cursor, error 500 propagates, two reads in total. -/
theorem C5_recreation_consumes_attempt_witness :
    start_first_cycle ⟨fun _ => "st", fun _ => "kt"⟩ 2
        (fun i => if i == 0 then ReadOutcome.apiErr 400 else ReadOutcome.apiErr 500)
        (fun _ => ⟨"new_id"⟩)
        { datafeed_id := some "fault_datafeed_id", ack_id := "" }
      = ([ApiCall.readDatafeed "st" "kt" (some "fault_datafeed_id") "",
          ApiCall.deleteDatafeed (some "fault_datafeed_id") "st" "kt",
          ApiCall.createDatafeed "st" "kt",
          ApiCall.readDatafeed "st" "kt" (some "new_id") "",
          ApiCall.stopListenerTasks],
         1, some (.apiException 500)) := by
  have h := C5_recreation_consumes_attempt ⟨fun _ => "st", fun _ => "kt"⟩
    (fun i => if i == 0 then ReadOutcome.apiErr 400 else ReadOutcome.apiErr 500)
    (fun _ => ⟨"new_id"⟩)
    { datafeed_id := some "fault_datafeed_id", ack_id := "" } 500
    rfl rfl (Or.inr rfl)
  exact h.1

/-- C6: a non-transport error (a `ValueError` defect) raised from the read
propagates out of `start()` on the very first occurrence: exactly one read
is issued, no recreation happens, and listener tasks are stopped (last trace
entry) before the error propagates. -/
theorem C6_unexpected_error_short_circuits (auth : AuthSession)
    (outcomes : Nat → ReadOutcome) (recreations : Nat → V5Datafeed)
    (s : DFState) (n : Nat)
    (h0 : outcomes 0 = .unexpected) :
    start_first_cycle auth (n + 1) outcomes recreations s
      = ([read_datafeed_attempt auth 0 s, ApiCall.stopListenerTasks],
         0, some .valueError) := by
  unfold start_first_cycle
  rw [read_retry_go, h0]
  rfl

/-- C6 witness: concrete run with budget 10 and a defect on the first read. -/
theorem C6_unexpected_error_short_circuits_witness :
    start_first_cycle ⟨fun _ => "st", fun _ => "kt"⟩ 10
        (fun _ => ReadOutcome.unexpected) (fun _ => ⟨"new_id"⟩)
        { datafeed_id := some "test_id", ack_id := "a" }
      = ([ApiCall.readDatafeed "st" "kt" (some "test_id") "a",
          ApiCall.stopListenerTasks],
         0, some .valueError) :=
  C6_unexpected_error_short_circuits ⟨fun _ => "st", fun _ => "kt"⟩
    (fun _ => ReadOutcome.unexpected) (fun _ => ⟨"new_id"⟩)
    { datafeed_id := some "test_id", ack_id := "a" } 9 rfl

/-- C7: with an empty listing at startup, `prepare_datafeed` creates a new
handle and stores its id, and the first read call then uses exactly that id
together with the empty cursor. -/
theorem C7_empty_list_creates_handle (df : V5Datafeed) (auth : AuthSession) :
    (prepare_datafeed [] df initState).datafeed_id = some df.id
    ∧ (prepare_datafeed [] df initState).ack_id = ""
    ∧ read_datafeed_attempt auth 0 (prepare_datafeed [] df initState)
        = ApiCall.readDatafeed (auth.session_token 0) (auth.key_manager_token 0)
            (some df.id) "" := by
  exact ⟨rfl, rfl, rfl⟩

/-- C8: each of the four retried operations awaits the session and
key-manager tokens inside the retried body, so attempt `i` of a retry run
issues its network call with the tokens of time `i`, never tokens cached
from an earlier attempt. -/
theorem C8_fresh_tokens_per_attempt (auth : AuthSession) (s : DFState)
    (n i : Nat) (h : i < n) :
    (retry_call_trace (fun t => read_datafeed_attempt auth t s) n)[i]?
        = some (ApiCall.readDatafeed (auth.session_token i)
            (auth.key_manager_token i) s.datafeed_id s.ack_id)
    ∧ (retry_call_trace (retrieve_datafeed_attempt auth) n)[i]?
        = some (ApiCall.listDatafeed (auth.session_token i)
            (auth.key_manager_token i))
    ∧ (retry_call_trace (create_datafeed_attempt auth) n)[i]?
        = some (ApiCall.createDatafeed (auth.session_token i)
            (auth.key_manager_token i))
    ∧ (retry_call_trace (fun t => delete_datafeed_attempt auth t s) n)[i]?
        = some (ApiCall.deleteDatafeed s.datafeed_id (auth.session_token i)
            (auth.key_manager_token i)) := by
  refine ⟨?_, ?_, ?_, ?_⟩ <;>
    simp [retry_call_trace, read_datafeed_attempt, retrieve_datafeed_attempt,
      create_datafeed_attempt, delete_datafeed_attempt, List.getElem?_map,
      List.getElem?_range, h]

/-- C8 witness: attempt 1 of 3 uses the tokens awaited at time 1, which
differ from the time-0 tokens under this auth session. -/
theorem C8_fresh_tokens_per_attempt_witness :
    (retry_call_trace
        (fun t => read_datafeed_attempt
          ⟨fun t => "st" ++ toString t, fun t => "kt" ++ toString t⟩ t
          { datafeed_id := some "id", ack_id := "a" }) 3)[1]?
      = some (ApiCall.readDatafeed "st1" "kt1" (some "id") "a") := by
  have h := C8_fresh_tokens_per_attempt
    ⟨fun t => "st" ++ toString t, fun t => "kt" ++ toString t⟩
    { datafeed_id := some "id", ack_id := "a" } 3 1 (by decide)
  exact h.1

/-- C9: on a successful read, the returned value is `None` exactly when the
batch is absent or empty (Python falsiness of `event_list.events`), the
batch itself when it is non-empty, and in every case the stored cursor is
advanced to the response's `ack_id`. -/
theorem C9_return_value_and_cursor (resp : V5EventList) (s : DFState) :
    (read_datafeed_success resp s).1.ack_id = resp.ack_id
    ∧ ((read_datafeed_success resp s).2 = none ↔
        (resp.events = none ∨ resp.events = some []))
    ∧ (∀ l, resp.events = some l → l ≠ [] →
        (read_datafeed_success resp s).2 = some l) := by
  obtain ⟨a, ev⟩ := resp
  match ev with
  | none => exact ⟨rfl, by simp [read_datafeed_success, events_truthy], by simp⟩
  | some [] => exact ⟨rfl, by simp [read_datafeed_success, events_truthy], by simp⟩
  | some (e :: es) =>
    refine ⟨rfl, by simp [read_datafeed_success, events_truthy], ?_⟩
    intro l hl _
    simp only [Option.some.injEq] at hl
    simp [read_datafeed_success, events_truthy, hl]

/-- C9 witness: a non-empty batch is returned as-is and the cursor is
advanced; instantiated at a one-event batch. -/
theorem C9_return_value_and_cursor_witness :
    (read_datafeed_success ⟨"ack_id", some [⟨0⟩]⟩
        { datafeed_id := some "id", ack_id := "" }).1.ack_id = "ack_id"
    ∧ (read_datafeed_success ⟨"ack_id", some [⟨0⟩]⟩
        { datafeed_id := some "id", ack_id := "" }).2 = some [⟨0⟩] := by
  have h := C9_return_value_and_cursor ⟨"ack_id", some [⟨0⟩]⟩
    { datafeed_id := some "id", ack_id := "" }
  exact ⟨h.1, h.2.2 [⟨0⟩] rfl (by decide)⟩

/-- C10: `recreate_datafeed` issues the delete against the prior stored
datafeed id (first call of the trace), and if the create fails after its
retries, both `_datafeed_id` and `_ack_id` retain the values they had
before the call. -/
theorem C10_recreate_mutates_only_after_create (auth : AuthSession) (t : Nat)
    (deleteOutcome : Except ApiError Unit)
    (createOutcome : Except ApiError V5Datafeed) (s : DFState) :
    (recreate_datafeed auth t deleteOutcome createOutcome s).1.head?
      = some (ApiCall.deleteDatafeed s.datafeed_id (auth.session_token t)
          (auth.key_manager_token t))
    ∧ (∀ e, createOutcome = .error e →
        (recreate_datafeed auth t deleteOutcome createOutcome s).2.2 = s) := by
  match deleteOutcome, createOutcome with
  | .error _, _ => exact ⟨rfl, fun _ _ => rfl⟩
  | .ok _, .error _ => exact ⟨rfl, fun _ _ => rfl⟩
  | .ok _, .ok _ => exact ⟨rfl, fun e h => by cases h⟩

/-- C10 witness: with the create failing with a 500, the state keeps its
prior datafeed id and cursor, and the delete targeted the prior id. -/
theorem C10_recreate_mutates_only_after_create_witness :
    (recreate_datafeed ⟨fun _ => "st", fun _ => "kt"⟩ 0 (.ok ())
        (.error (.apiException 500))
        { datafeed_id := some "old", ack_id := "cur" }).1.head?
      = some (ApiCall.deleteDatafeed (some "old") "st" "kt")
    ∧ (recreate_datafeed ⟨fun _ => "st", fun _ => "kt"⟩ 0 (.ok ())
        (.error (.apiException 500))
        { datafeed_id := some "old", ack_id := "cur" }).2.2
      = { datafeed_id := some "old", ack_id := "cur" } := by
  have h := C10_recreate_mutates_only_after_create ⟨fun _ => "st", fun _ => "kt"⟩ 0
    (.ok ()) (.error (.apiException 500))
    { datafeed_id := some "old", ack_id := "cur" }
  exact ⟨h.1, h.2 (.apiException 500) rfl⟩

end SymphonyDF
